import Mathlib

/-!
Verification development for the siwes-backend library-management server.
Two near-duplicate revisions are embedded: the Mongoose variant
(src/server.js) and the relational variant (src/unnamed/part_000).
Dates are modelled as natural numbers: milliseconds since the epoch in the
Mongoose variant, whole days in the relational variant (whose columns are
SQL DATEs).
-/

namespace Siwes

/-! ## Data model, Mongoose variant (src/server.js lines 29-71) -/

/-- User document (userSchema, src/server.js lines 29-35). -/
structure MUser where
  id : Nat
  full_name : String
  email : String
  password : String
  role : String
  created_at : Nat
  deriving Repr, DecidableEq

/-- Book document (bookSchema, src/server.js lines 38-45). -/
structure MBook where
  id : Nat
  title : String
  author : String
  published_year : Option Int
  isbn : Option String
  copies_available : Int
  created_at : Nat
  deriving Repr, DecidableEq

/-- Borrow-record document (borrowRecordSchema, src/server.js lines 48-56). -/
structure MRecord where
  id : Nat
  user_name : String
  book_id : Nat
  borrow_date : Nat
  due_date : Nat
  return_date : Option Nat
  status : String
  created_at : Nat
  deriving Repr, DecidableEq

/-- The MongoDB store: one list per collection plus the next fresh object id. -/
structure Store where
  users : List MUser
  books : List MBook
  records : List MRecord
  nextId : Nat
  deriving Repr, DecidableEq

def emptyStore : Store := { users := [], books := [], records := [], nextId := 1 }

/-! ## Error taxonomy

The reference system answers with a plain status code and short text.
`errKind` maps a concrete (status, text) response onto the error taxonomy of
the spec (section 7): 401 is Unauthorized, 404 is NotFound, the duplicate
unique-key branch (400 with the fixed text) is Conflict, anything else is
the generic Internal kind. -/

inductive ErrKind where
  | unauthorized
  | notFound
  | conflict
  | internal
  deriving Repr, DecidableEq

def errKind : Nat × String → ErrKind
  | (401, _) => .unauthorized
  | (404, _) => .notFound
  | (400, "Email already exists") => .conflict
  | _ => .internal

/-! ## Authentication middleware (src/server.js lines 76-86; identical in
src/unnamed/part_000 lines 21-31)

The JS code reads the Authorization header, strips the first occurrence of
the substring "Bearer " (String.prototype.replace replaces the first
occurrence only), answers 401 when the header is missing or the remaining
token is empty, and otherwise calls jwt.verify, answering 401 when it
throws. jwt.verify is the external token primitive: it is passed in as a
function returning the decoded claims, or none on a malformed, expired or
badly signed token. -/

structure TokenClaims where
  id : Nat
  role : String
  deriving Repr, DecidableEq

/-- Drops `p` from the front of `s` when `s` starts with `p`. -/
def dropLead? : List Char → List Char → Option (List Char)
  | s, [] => some s
  | [], _ :: _ => none
  | c :: s, q :: qs => if c = q then dropLead? s qs else none

/-- Replaces the first occurrence of `pat` in `s` by the empty string,
matching JS `s.replace(pat, '')`. -/
def replaceFirst : List Char → List Char → List Char
  | [], _ => []
  | c :: s, pat =>
    match dropLead? (c :: s) pat with
    | some rest => rest
    | none => c :: replaceFirst s pat

def stripBearer (h : String) : String :=
  String.mk (replaceFirst h.data "Bearer ".data)

def authenticate (verify : String → Option TokenClaims) (hdr : Option String) :
    Except (Nat × String) TokenClaims :=
  match hdr with
  | none => .error (401, "Access denied")
  | some h =>
    let token := stripBearer h
    if token = "" then .error (401, "Access denied")
    else
      match verify token with
      | none => .error (401, "Invalid token")
      | some c => .ok c

/-- A token-gated route: the handler runs only when `authenticate` succeeds. -/
def gateRoute {σ α : Type} (verify : String → Option TokenClaims) (hdr : Option String)
    (handler : TokenClaims → σ → Except (Nat × String) α × σ) (s : σ) :
    Except (Nat × String) α × σ :=
  match authenticate verify hdr with
  | .error e => (.error e, s)
  | .ok c => handler c s

/-! ## Auth routes, Mongoose variant -/

/-- JS `role || 'student'` (src/server.js line 117): null, undefined and the
empty string are all falsy. -/
def jsOr (r : Option String) (d : String) : String :=
  match r with
  | none => d
  | some x => if x = "" then d else x

/-- POST /register (src/server.js lines 109-128). The unique index on email
makes save() fail with code 11000 on a duplicate, which the route maps to
400 "Email already exists". `hash` is the external bcrypt.hash primitive. -/
def mongoRegister (hash : String → String) (now : Nat) (s : Store)
    (full_name email password : String) (role : Option String) :
    Except (Nat × String) String × Store :=
  if s.users.any (fun u => u.email = email) then
    (.error (400, "Email already exists"), s)
  else
    let u : MUser := { id := s.nextId, full_name := full_name, email := email,
                       password := hash password, role := jsOr role "student",
                       created_at := now }
    (.ok "User registered successfully",
     { s with users := s.users ++ [u], nextId := s.nextId + 1 })

/-- POST /login (src/server.js lines 130-149). `compare` is the external
bcrypt.compare primitive, `sign` the external jwt.sign primitive applied to
the payload fields (id, role). -/
def mongoLogin (compare : String → String → Bool) (sign : Nat → String → String)
    (s : Store) (email password : String) : Except (Nat × String) String :=
  match s.users.find? (fun u => u.email = email) with
  | none => .error (401, "User not found")
  | some u =>
    if compare password u.password then .ok (sign u.id u.role)
    else .error (401, "Invalid password")

/-! ## Users routes, Mongoose variant -/

/-- The shape GET /users returns for each user (src/server.js lines 161-167):
no password field exists in it. -/
structure UserView where
  user_id : Nat
  full_name : String
  email : String
  role : String
  created_at : Nat
  deriving Repr, DecidableEq

def userView (u : MUser) : UserView :=
  { user_id := u.id, full_name := u.full_name, email := u.email,
    role := u.role, created_at := u.created_at }

def insertById (u : MUser) : List MUser → List MUser
  | [] => [u]
  | v :: vs => if u.id ≤ v.id then u :: v :: vs else v :: insertById u vs

/-- `.sort({ _id: 1 })`: ascending by object id. -/
def sortById (l : List MUser) : List MUser := l.foldr insertById []

/-- GET /users (src/server.js lines 158-173): find, drop password, sort by
id ascending, project the view fields. -/
def mongoGetUsers (s : Store) : List UserView :=
  (sortById s.users).map userView

/-- The user document POST /users builds: its stored password is the bcrypt
hash of the fixed string "password123" (src/server.js lines 178-184). -/
def defaultPasswordUser (hash : String → String) (now : Nat) (s : Store)
    (full_name email : String) (role : Option String) : MUser :=
  { id := s.nextId, full_name := full_name, email := email,
    password := hash "password123", role := role.getD "student", created_at := now }

/-- POST /users (src/server.js lines 175-200): the stored password is the
bcrypt hash of the fixed string "password123"; duplicate email maps to 400. -/
def mongoCreateUser (hash : String → String) (now : Nat) (s : Store)
    (full_name email : String) (role : Option String) :
    Except (Nat × String) UserView × Store :=
  if s.users.any (fun u => u.email = email) then
    (.error (400, "Email already exists"), s)
  else
    let u : MUser := defaultPasswordUser hash now s full_name email role
    (.ok (userView u), { s with users := s.users ++ [u], nextId := s.nextId + 1 })

/-! ## Borrow-record routes, Mongoose variant -/

/-- POST /borrow_records (src/server.js lines 402-423): inserts with the
schema defaults status "borrowed", borrow_date now, return_date absent;
touches no other collection. -/
def mongoCreateRecord (now : Nat) (s : Store) (user_name : String)
    (book_id due_date : Nat) : MRecord × Store :=
  let r : MRecord := { id := s.nextId, user_name := user_name, book_id := book_id,
                       borrow_date := now, due_date := due_date,
                       return_date := none, status := "borrowed", created_at := now }
  (r, { s with records := s.records ++ [r], nextId := s.nextId + 1 })

def markReturnedDoc (now : Nat) (r : MRecord) : MRecord :=
  { r with return_date := some now, status := "returned" }

/-- PUT /borrow_records/:id/return (src/server.js lines 425-447):
findByIdAndUpdate sets return_date to the current time and status to
"returned"; a missing id answers 404 "Record not found". -/
def mongoMarkReturned (now : Nat) (s : Store) (id : Nat) :
    Except (Nat × String) MRecord × Store :=
  match s.records.find? (fun r => r.id = id) with
  | none => (.error (404, "Record not found"), s)
  | some r =>
    (.ok (markReturnedDoc now r),
     { s with records := s.records.map (fun x => if x.id = id then markReturnedDoc now x else x) })

/-- DELETE /borrow_records/:id (src/server.js lines 449-458):
findByIdAndDelete, a silent no-op when the id is absent. -/
def mongoDeleteRecord (s : Store) (id : Nat) : String × Store :=
  ("Borrow record deleted", { s with records := s.records.filter (fun r => r.id ≠ id) })

/-! ## Overdue report, Mongoose variant (src/server.js lines 523-547) -/

def msPerDay : Nat := 1000 * 60 * 60 * 24

/-- populate('book_id', 'title') with the fallback `record.book_id?.title ||
'Unknown'`. -/
def bookTitle (books : List MBook) (bid : Nat) : String :=
  match books.find? (fun b => b.id = bid) with
  | some b => b.title
  | none => "Unknown"

/-- One row of the overdue report (src/server.js lines 530-541):
overdue_days is Math.floor of the elapsed milliseconds over a day, which for
a past due_date is natural-number division; fine keeps the literal `* 1`. -/
structure OverdueRow where
  user_name : String
  title : String
  due_date : Nat
  overdue_days : Nat
  fine : Nat
  deriving Repr, DecidableEq

def overdueRow (now : Nat) (books : List MBook) (r : MRecord) : OverdueRow :=
  let overdueDays := (now - r.due_date) / msPerDay
  { user_name := r.user_name, title := bookTitle books r.book_id,
    due_date := r.due_date, overdue_days := overdueDays, fine := overdueDays * 1 }

/-- GET /reports/overdue (src/server.js lines 523-547): selects records with
return_date null and due_date strictly before the current instant, then maps
each to its report row. -/
def overdueReport (now : Nat) (s : Store) : List OverdueRow :=
  (s.records.filter (fun r => r.return_date = none ∧ r.due_date < now)).map
    (overdueRow now s.books)

/-! ## Data model, relational variant (src/unnamed/part_000)

The SQL schema itself is not part of src/; the columns below are the ones
the code reads and writes, matching the data model of the spec (section 3):
in this variant a borrow record references the borrower by a user_id
foreign key. -/

structure PUser where
  user_id : Nat
  full_name : String
  email : String
  password : String
  role : Option String
  deriving Repr, DecidableEq

structure PBook where
  book_id : Nat
  title : String
  author : String
  published_year : Option Int
  isbn : Option String
  copies_available : Int
  deriving Repr, DecidableEq

structure PRecord where
  record_id : Nat
  user_id : Nat
  book_id : Nat
  borrow_date : Nat
  due_date : Nat
  return_date : Option Nat
  status : String
  deriving Repr, DecidableEq

structure PgStore where
  users : List PUser
  books : List PBook
  records : List PRecord
  nextId : Nat
  deriving Repr, DecidableEq

def pgEmpty : PgStore := { users := [], books := [], records := [], nextId := 1 }

/-! ## Relational routes -/

/-- POST /register (src/unnamed/part_000 lines 312-325). Modelled from the
spec: the users table (schema not under src/) has a unique constraint on
email (spec section 3), so the INSERT of a duplicate raises; this route's
only catch branch answers 500 "Error registering user" — it has no
duplicate-key branch. -/
def pgRegister (hash : String → String) (s : PgStore)
    (full_name email password : String) (role : Option String) :
    Except (Nat × String) String × PgStore :=
  if s.users.any (fun u => u.email = email) then
    (.error (500, "Error registering user"), s)
  else
    let u : PUser := { user_id := s.nextId, full_name := full_name, email := email,
                       password := hash password, role := role }
    (.ok "User registered successfully",
     { s with users := s.users ++ [u], nextId := s.nextId + 1 })

/-- GET /users (src/unnamed/part_000 lines 49-57): `SELECT * FROM users
ORDER BY user_id ASC` — whole rows, the password column included. -/
def pgInsertById (u : PUser) : List PUser → List PUser
  | [] => [u]
  | v :: vs => if u.user_id ≤ v.user_id then u :: v :: vs else v :: pgInsertById u vs

def pgGetUsers (s : PgStore) : List PUser :=
  s.users.foldr pgInsertById []

/-- POST /borrow_records (src/unnamed/part_000 lines 215-227). Modelled from
the spec: the borrow_records table (schema not under src/) defaults status
to borrowed, borrow_date to the current date and return_date to null (spec
section 3); the route inserts only (user_id, book_id, due_date). -/
def pgCreateRecord (today : Nat) (s : PgStore) (user_id book_id due_date : Nat) :
    PRecord × PgStore :=
  let r : PRecord := { record_id := s.nextId, user_id := user_id, book_id := book_id,
                       borrow_date := today, due_date := due_date,
                       return_date := none, status := "borrowed" }
  (r, { s with records := s.records ++ [r], nextId := s.nextId + 1 })

/-- PUT /borrow_records/:id/return (src/unnamed/part_000 lines 229-241): the
UPDATE sets return_date to CURRENT_DATE and status to "returned" on every
matching row, then the route answers 200 with `result.rows[0]` — when no row
matched, rows is empty, rows[0] is undefined and res.json sends a 200 with
no record; there is no 404 branch. -/
def pgMarkReturned (today : Nat) (s : PgStore) (id : Nat) :
    (Nat × Option PRecord) × PgStore :=
  let updated := s.records.map (fun r =>
    if r.record_id = id then { r with return_date := some today, status := "returned" } else r)
  let rows := updated.filter (fun r => r.record_id = id)
  ((200, rows.head?), { s with records := updated })

/-- DELETE /users/:id (src/unnamed/part_000 lines 129-138). Modelled from
the spec: borrow_records.user_id is a foreign key to users (schema not under
src/, spec section 3), and deletion of a referenced user is either
disallowed or cascades (spec sections 3 and 9) — the policy is the store's
constraint choice, carried here as a parameter. Under restrict the DELETE
raises and the route's catch answers 500 "Error deleting user" leaving the
store unchanged; under cascade the referencing records go with the user. -/
inductive FkPolicy where
  | restrict
  | cascade
  deriving Repr, DecidableEq

def pgDeleteUser (pol : FkPolicy) (s : PgStore) (id : Nat) :
    Except (Nat × String) String × PgStore :=
  if s.records.any (fun r => r.user_id = id) then
    match pol with
    | .restrict => (.error (500, "Error deleting user"), s)
    | .cascade =>
      (.ok "User deleted",
       { s with users := s.users.filter (fun u => u.user_id ≠ id),
                records := s.records.filter (fun r => r.user_id ≠ id) })
  else
    (.ok "User deleted", { s with users := s.users.filter (fun u => u.user_id ≠ id) })

/-! ## Operation sequences over borrow records (for the lifecycle invariant)

The public-API operations that touch borrow records in the Mongoose
variant: create (POST /borrow_records), mark returned
(PUT /borrow_records/:id/return) and delete (DELETE /borrow_records/:id). -/

inductive BOp where
  | create (now : Nat) (user_name : String) (book_id due_date : Nat)
  | markRet (now : Nat) (id : Nat)
  | del (id : Nat)
  deriving Repr, DecidableEq

def execOp (s : Store) : BOp → Store
  | .create now un bid dd => (mongoCreateRecord now s un bid dd).2
  | .markRet now id => (mongoMarkReturned now s id).2
  | .del id => (mongoDeleteRecord s id).2

def runOps (ops : List BOp) : Store := ops.foldl execOp emptyStore

/-- The lifecycle invariant of one record: return_date null exactly while
status is borrowed, non-null exactly while status is returned. -/
def RecInv (r : MRecord) : Prop :=
  (r.return_date = none ↔ r.status = "borrowed") ∧
  (r.return_date ≠ none ↔ r.status = "returned")

def StoreInv (s : Store) : Prop := ∀ r ∈ s.records, RecInv r

/-! ## Concrete fixtures used by witnesses -/

def recW : MRecord :=
  { id := 1, user_name := "Ada", book_id := 5, borrow_date := 0, due_date := 0,
    return_date := none, status := "borrowed", created_at := 0 }

def stW : Store := { users := [], books := [], records := [recW], nextId := 2 }

/-! ## Theorems -/

/-- Claim C1: for every store state and current instant, the overdue report
contains exactly the rows built from the borrow records with null
return_date and due_date strictly before now, and each row carries
overdue_days equal to the whole-day floor of (now - due_date) and fine equal
to overdue_days times one. -/
theorem c1_overdue_report_correct (now : Nat) (s : Store) :
    (∀ row ∈ overdueReport now s, ∃ r ∈ s.records,
      r.return_date = none ∧ r.due_date < now ∧ row = overdueRow now s.books r ∧
      row.user_name = r.user_name ∧ row.due_date = r.due_date ∧
      row.overdue_days = (now - r.due_date) / msPerDay ∧
      row.fine = row.overdue_days * 1) ∧
    (∀ r ∈ s.records, r.return_date = none → r.due_date < now →
      overdueRow now s.books r ∈ overdueReport now s) := by
  constructor
  · intro row hrow
    simp only [overdueReport, List.mem_map, List.mem_filter, decide_eq_true_eq] at hrow
    obtain ⟨r, ⟨hr, hnull, hdue⟩, hrw⟩ := hrow
    refine ⟨r, hr, hnull, hdue, hrw.symm, ?_, ?_, ?_, ?_⟩ <;> simp [← hrw, overdueRow]
  · intro r hr h1 h2
    simp only [overdueReport, List.mem_map]
    exact ⟨r, List.mem_filter.mpr ⟨hr, by simp [h1, h2]⟩, rfl⟩

/-- Witness for C1: a record two days past due, not returned, appears in the
report with overdue_days 2 and fine 2. -/
theorem c1_overdue_report_witness :
    overdueRow (2 * msPerDay) stW.books recW ∈ overdueReport (2 * msPerDay) stW :=
  (c1_overdue_report_correct (2 * msPerDay) stW).2 recW (by decide) (by decide) (by decide)

/-- Counterexample to claim C2: in the relational variant, marking an absent
record returned does not produce a NotFound failure — the route answers 200
with no record row. -/
theorem c2_pg_not_notFound :
    pgEmpty.records.any (fun r => r.record_id = 1) = false ∧
    (pgMarkReturned 5 pgEmpty 1).1 = (200, none) ∧
    (pgMarkReturned 5 pgEmpty 1).1.1 ≠ 404 := by decide

/-- Claim C2 as amended: for every record id absent from the store, both
variants leave the store unchanged; the Mongoose variant fails with NotFound
while the relational variant answers 200 with no record instead of
NotFound. -/
theorem c2_mark_returned_missing (now today : Nat) (s : Store) (p : PgStore)
    (id pid : Nat)
    (hm : ∀ r ∈ s.records, r.id ≠ id) (hp : ∀ r ∈ p.records, r.record_id ≠ pid) :
    (mongoMarkReturned now s id).1 = .error (404, "Record not found") ∧
    errKind (404, "Record not found") = ErrKind.notFound ∧
    (mongoMarkReturned now s id).2 = s ∧
    (pgMarkReturned today p pid).1 = (200, none) ∧
    (pgMarkReturned today p pid).2 = p := by
  have hfind : s.records.find? (fun r => r.id = id) = none := by
    rw [List.find?_eq_none]
    intro r hr
    simp [hm r hr]
  have hmap : p.records.map (fun r =>
      if r.record_id = pid then { r with return_date := some today, status := "returned" } else r)
      = p.records := by
    have := List.map_congr_left (l := p.records)
      (f := fun r => if r.record_id = pid
        then { r with return_date := some today, status := "returned" } else r)
      (g := fun r => r) (fun r hr => by simp [hp r hr])
    simpa using this
  have hfilter : p.records.filter (fun r => r.record_id = pid) = [] := by
    rw [List.filter_eq_nil_iff]
    intro r hr
    simp [hp r hr]
  refine ⟨?_, rfl, ?_, ?_, ?_⟩
  · simp [mongoMarkReturned, hfind]
  · simp [mongoMarkReturned, hfind]
  · simp [pgMarkReturned, hmap, hfilter]
  · simp [pgMarkReturned, hmap]

/-- Witness for C2 (amended): on the empty stores, both variants behave as
stated for the absent record id 1. -/
theorem c2_mark_returned_missing_witness :
    (mongoMarkReturned 3 emptyStore 1).1 = .error (404, "Record not found") ∧
    errKind (404, "Record not found") = ErrKind.notFound ∧
    (mongoMarkReturned 3 emptyStore 1).2 = emptyStore ∧
    (pgMarkReturned 5 pgEmpty 1).1 = (200, none) ∧
    (pgMarkReturned 5 pgEmpty 1).2 = pgEmpty :=
  c2_mark_returned_missing 3 5 emptyStore pgEmpty 1 1 (by simp [emptyStore])
    (by simp [pgEmpty])

/-- Counterexample to claim C3: in the relational variant, the second
registration with a duplicate email fails with the generic 500 response of
the route's only catch branch, which is the Internal kind, not Conflict. -/
theorem c3_pg_duplicate_not_conflict :
    (pgRegister (fun q => q)
        ((pgRegister (fun q => q) pgEmpty "Ada" "a@x.com" "pw" none).2)
        "Beth" "a@x.com" "pw2" none).1
      = .error (500, "Error registering user") ∧
    errKind (500, "Error registering user") ≠ ErrKind.conflict := by
  exact ⟨rfl, by decide⟩

/-- Claim C3 as amended: registering twice with the same (initially absent)
email leaves exactly one user with that email in either variant; the second
call fails with the Conflict kind in the Mongoose variant and with the
generic Internal kind in the relational variant. -/
theorem c3_duplicate_register (hash : String → String) (n1 n2 : Nat)
    (s : Store) (p : PgStore) (fn1 fn2 pw1 pw2 e : String) (r1 r2 : Option String)
    (hs : ∀ u ∈ s.users, u.email ≠ e) (hp : ∀ u ∈ p.users, u.email ≠ e) :
    (mongoRegister hash n2 (mongoRegister hash n1 s fn1 e pw1 r1).2 fn2 e pw2 r2).1
      = .error (400, "Email already exists") ∧
    errKind (400, "Email already exists") = ErrKind.conflict ∧
    (((mongoRegister hash n2 (mongoRegister hash n1 s fn1 e pw1 r1).2 fn2 e pw2 r2).2).users.filter
        (fun u => u.email = e)).length = 1 ∧
    (pgRegister hash (pgRegister hash p fn1 e pw1 r1).2 fn2 e pw2 r2).1
      = .error (500, "Error registering user") ∧
    errKind (500, "Error registering user") = ErrKind.internal ∧
    (((pgRegister hash (pgRegister hash p fn1 e pw1 r1).2 fn2 e pw2 r2).2).users.filter
        (fun u => u.email = e)).length = 1 := by
  have hany : s.users.any (fun u => u.email = e) = false := by
    simp only [List.any_eq_false, decide_eq_true_eq]
    exact hs
  have hpany : p.users.any (fun u => u.email = e) = false := by
    simp only [List.any_eq_false, decide_eq_true_eq]
    exact hp
  have hsfilter : s.users.filter (fun u => u.email = e) = [] := by
    rw [List.filter_eq_nil_iff]
    intro u hu
    simp [hs u hu]
  have hpfilter : p.users.filter (fun u => u.email = e) = [] := by
    rw [List.filter_eq_nil_iff]
    intro u hu
    simp [hp u hu]
  refine ⟨?_, rfl, ?_, ?_, rfl, ?_⟩
  · simp [mongoRegister, hany]
  · simp [mongoRegister, hany, List.filter_append, hsfilter]
  · simp [pgRegister, hpany]
  · simp [pgRegister, hpany, List.filter_append, hpfilter]

/-- Witness for C3 (amended): the double registration from the empty stores
with email a@x.com behaves as stated. -/
theorem c3_duplicate_register_witness :
    (mongoRegister (fun q => q) 2
        (mongoRegister (fun q => q) 1 emptyStore "Ada" "a@x.com" "pw" none).2
        "Beth" "a@x.com" "pw2" none).1 = .error (400, "Email already exists") ∧
    errKind (400, "Email already exists") = ErrKind.conflict ∧
    (((mongoRegister (fun q => q) 2
        (mongoRegister (fun q => q) 1 emptyStore "Ada" "a@x.com" "pw" none).2
        "Beth" "a@x.com" "pw2" none).2).users.filter
        (fun u => u.email = "a@x.com")).length = 1 ∧
    (pgRegister (fun q => q)
        (pgRegister (fun q => q) pgEmpty "Ada" "a@x.com" "pw" none).2
        "Beth" "a@x.com" "pw2" none).1 = .error (500, "Error registering user") ∧
    errKind (500, "Error registering user") = ErrKind.internal ∧
    (((pgRegister (fun q => q)
        (pgRegister (fun q => q) pgEmpty "Ada" "a@x.com" "pw" none).2
        "Beth" "a@x.com" "pw2" none).2).users.filter
        (fun u => u.email = "a@x.com")).length = 1 :=
  c3_duplicate_register (fun q => q) 1 2 emptyStore pgEmpty "Ada" "Beth" "pw" "pw2"
    "a@x.com" none none (by simp [emptyStore]) (by simp [pgEmpty])

/-- Claim C4: markReturned is not idempotent — on an existing record a second
call sets return_date to the current time again (it does not reject), and
the record still ends with status returned. -/
theorem c4_mark_returned_not_idempotent (t1 t2 : Nat) (s : Store) (rid : Nat)
    (r0 : MRecord) (h : s.records.find? (fun r => r.id = rid) = some r0) :
    ∃ r2, (mongoMarkReturned t2 (mongoMarkReturned t1 s rid).2 rid).1 = .ok r2 ∧
      r2.return_date = some t2 ∧ r2.status = "returned" := by
  have hkey : ∀ x : MRecord,
      ((if x.id = rid then markReturnedDoc t1 x else x).id = rid) = (x.id = rid) := by
    intro x
    by_cases hx : x.id = rid <;> simp [hx, markReturnedDoc]
  have hfind2 : ((s.records.map (fun x => if x.id = rid then markReturnedDoc t1 x else x)).find?
      (fun r => r.id = rid)) = some (markReturnedDoc t1 r0) := by
    rw [List.find?_map]
    have hcomp : ((fun r : MRecord => decide (r.id = rid)) ∘
        (fun x => if x.id = rid then markReturnedDoc t1 x else x))
        = fun x : MRecord => decide (x.id = rid) := by
      funext x
      simp [Function.comp, hkey x]
    rw [hcomp, h]
    have hr0 : r0.id = rid := by simpa using List.find?_some h
    simp [hr0]
  refine ⟨markReturnedDoc t2 (markReturnedDoc t1 r0), ?_, rfl, rfl⟩
  simp [mongoMarkReturned, h, hfind2]

/-- Witness for C4: marking the fixture record returned twice succeeds and
ends at the second return time with status returned. -/
theorem c4_mark_returned_not_idempotent_witness :
    ∃ r2, (mongoMarkReturned 9 (mongoMarkReturned 4 stW 1).2 1).1 = .ok r2 ∧
      r2.return_date = some 9 ∧ r2.status = "returned" :=
  c4_mark_returned_not_idempotent 4 9 stW 1 recW (by decide)

/-- The lifecycle invariant holds for a freshly created borrow record. -/
theorem recInv_new (now : Nat) (s : Store) (un : String) (bid dd : Nat) :
    RecInv (mongoCreateRecord now s un bid dd).1 := by
  constructor <;> simp [mongoCreateRecord, RecInv]

/-- The lifecycle invariant holds for a record just marked returned. -/
theorem recInv_markReturnedDoc (now : Nat) (r : MRecord) :
    RecInv (markReturnedDoc now r) := by
  constructor <;> simp [markReturnedDoc]

/-- Each borrow-record operation preserves the lifecycle invariant. -/
theorem storeInv_execOp (s : Store) (op : BOp) (h : StoreInv s) :
    StoreInv (execOp s op) := by
  cases op with
  | create now un bid dd =>
    intro r hr
    simp only [execOp, mongoCreateRecord, List.mem_append, List.mem_singleton] at hr
    rcases hr with hr | hr
    · exact h r hr
    · rw [hr]
      exact recInv_new now s un bid dd
  | markRet now rid =>
    intro r hr
    simp only [execOp, mongoMarkReturned] at hr
    rcases hfind : s.records.find? (fun x => x.id = rid) with _ | r0
    · rw [hfind] at hr
      exact h r hr
    · rw [hfind] at hr
      simp only [List.mem_map] at hr
      obtain ⟨x, hx, hxr⟩ := hr
      by_cases hid : x.id = rid
      · rw [← hxr, if_pos hid]
        exact recInv_markReturnedDoc now x
      · rw [← hxr, if_neg hid]
        exact h x hx
  | del rid =>
    intro r hr
    simp only [execOp, mongoDeleteRecord] at hr
    exact h r (List.mem_filter.mp hr).1

/-- Claim C5: every sequence of public borrow-record operations run from the
empty store yields a store in which every record has return_date null
exactly while status is borrowed and non-null exactly while status is
returned. -/
theorem c5_lifecycle_invariant (ops : List BOp) : StoreInv (runOps ops) := by
  have hfold : ∀ (l : List BOp) (s : Store), StoreInv s → StoreInv (l.foldl execOp s) := by
    intro l
    induction l with
    | nil => intro s hs; exact hs
    | cons op l ih =>
      intro s hs
      exact ih (execOp s op) (storeInv_execOp s op hs)
  exact hfold ops emptyStore (by intro r hr; simp [emptyStore] at hr)

/-- Witness for C5: the invariant evaluated after a concrete
create-return-create sequence. -/
theorem c5_lifecycle_invariant_witness :
    StoreInv (runOps [BOp.create 0 "Ada" 5 10, BOp.markRet 3 1, BOp.create 4 "Bob" 6 20]) :=
  c5_lifecycle_invariant [BOp.create 0 "Ada" 5 10, BOp.markRet 3 1, BOp.create 4 "Bob" 6 20]

/-- Claim C6: a request to a token-gated route with a missing Authorization
header, or whose stripped bearer token the token primitive rejects
(malformed, expired or badly signed), fails with the Unauthorized kind and
the handler never runs — the state comes back unchanged whatever the
handler is. -/
theorem c6_auth_gate {σ α : Type} (verify : String → Option TokenClaims)
    (hdr : Option String) (handler : TokenClaims → σ → Except (Nat × String) α × σ)
    (s : σ)
    (h : hdr = none ∨ ∃ hv, hdr = some hv ∧ verify (stripBearer hv) = none) :
    ∃ e, gateRoute verify hdr handler s = (.error e, s) ∧
      errKind e = ErrKind.unauthorized := by
  rcases h with h | ⟨hv, hhdr, hver⟩
  · exact ⟨(401, "Access denied"), by simp [gateRoute, authenticate, h], rfl⟩
  · subst hhdr
    by_cases he : stripBearer hv = ""
    · exact ⟨(401, "Access denied"), by simp [gateRoute, authenticate, he], rfl⟩
    · exact ⟨(401, "Invalid token"), by simp [gateRoute, authenticate, he, hver], rfl⟩

/-- Witness for C6: with a token primitive that rejects everything, a
request carrying "Bearer t" is turned away with Unauthorized and the state
0 is untouched by a handler that would have changed it. -/
theorem c6_auth_gate_witness :
    ∃ e, gateRoute (fun _ => none) (some "Bearer t")
        (fun _ (n : Nat) => (Except.ok (0 : Nat), n + 1)) 0 = (.error e, 0) ∧
      errKind e = ErrKind.unauthorized :=
  c6_auth_gate (fun _ => none) (some "Bearer t")
    (fun _ (n : Nat) => (Except.ok (0 : Nat), n + 1)) 0
    (Or.inr ⟨"Bearer t", rfl, rfl⟩)

/-- Rewrites a user's stored password hash, leaving every other field
alone. -/
def pwRewrite (f : MUser → String) (u : MUser) : MUser := { u with password := f u }

/-- Counterexample to claim C7: in the relational variant GET /users runs
SELECT * and returns whole rows, so two stores whose single user differs
only in the stored password hash produce different responses. -/
theorem c7_pg_password_leak :
    pgGetUsers { users := [{ user_id := 1, full_name := "Ada", email := "a@x.com",
                             password := "hashA", role := some "student" }],
                 books := [], records := [], nextId := 2 }
      ≠ pgGetUsers { users := [{ user_id := 1, full_name := "Ada", email := "a@x.com",
                                 password := "hashB", role := some "student" }],
                     books := [], records := [], nextId := 2 } := by decide

/-- Inserting a password-rewritten user into a password-rewritten list
commutes with the rewrite, because the insertion compares ids only. -/
theorem insertById_pwRewrite (f : MUser → String) (u : MUser) (l : List MUser) :
    insertById (pwRewrite f u) (l.map (pwRewrite f)) = (insertById u l).map (pwRewrite f) := by
  induction l with
  | nil => rfl
  | cons v vs ih =>
    have hid : (pwRewrite f u).id = u.id := rfl
    have hidv : (pwRewrite f v).id = v.id := rfl
    by_cases hle : u.id ≤ v.id
    · simp only [List.map_cons, insertById, hid, hidv, if_pos hle]
    · simp only [List.map_cons, insertById, hid, hidv, if_neg hle, ih]

/-- Sorting by id commutes with rewriting passwords. -/
theorem sortById_pwRewrite (f : MUser → String) (l : List MUser) :
    sortById (l.map (pwRewrite f)) = (sortById l).map (pwRewrite f) := by
  induction l with
  | nil => rfl
  | cons u us ih =>
    have h1 : sortById ((u :: us).map (pwRewrite f))
        = insertById (pwRewrite f u) (sortById (us.map (pwRewrite f))) := rfl
    have h2 : (sortById (u :: us)).map (pwRewrite f)
        = (insertById u (sortById us)).map (pwRewrite f) := rfl
    rw [h1, ih, h2, insertById_pwRewrite]

/-- Claim C7 as amended: in the Mongoose variant the GET /users response
carries no password data — rewriting every stored password hash by an
arbitrary function leaves the response literally unchanged. (The relational
variant instead returns the password column, see the counterexample.) -/
theorem c7_mongo_no_password (s : Store) (f : MUser → String) :
    mongoGetUsers { s with users := s.users.map (pwRewrite f) } = mongoGetUsers s := by
  simp only [mongoGetUsers]
  rw [sortById_pwRewrite, List.map_map]
  exact List.map_congr_left (fun u _ => rfl)

/-- A one-user fixture for the C7 witness. -/
def stW7 : Store :=
  { users := [{ id := 1, full_name := "Ada", email := "a@x.com", password := "hashA",
                role := "student", created_at := 0 }],
    books := [], records := [], nextId := 2 }

/-- Witness for C7 (amended): evaluated on the single-user store with the
hash rewritten to a constant. -/
theorem c7_mongo_no_password_witness :
    mongoGetUsers { stW7 with users := stW7.users.map (pwRewrite (fun _ => "hashB")) }
      = mongoGetUsers stW7 :=
  c7_mongo_no_password stW7 (fun _ => "hashB")

/-- Claim C8: creating a borrow record inserts it with status borrowed,
borrow_date the current time and return_date null, and leaves every Book
record — copies_available included — unchanged, in both variants. -/
theorem c8_create_record (now : Nat) (s : Store) (un : String) (bid dd : Nat)
    (today : Nat) (p : PgStore) (uid pbid pdd : Nat) :
    (mongoCreateRecord now s un bid dd).1.status = "borrowed" ∧
    (mongoCreateRecord now s un bid dd).1.borrow_date = now ∧
    (mongoCreateRecord now s un bid dd).1.return_date = none ∧
    (mongoCreateRecord now s un bid dd).2.records
      = s.records ++ [(mongoCreateRecord now s un bid dd).1] ∧
    (mongoCreateRecord now s un bid dd).2.books = s.books ∧
    (mongoCreateRecord now s un bid dd).2.users = s.users ∧
    (pgCreateRecord today p uid pbid pdd).1.status = "borrowed" ∧
    (pgCreateRecord today p uid pbid pdd).1.borrow_date = today ∧
    (pgCreateRecord today p uid pbid pdd).1.return_date = none ∧
    (pgCreateRecord today p uid pbid pdd).2.records
      = p.records ++ [(pgCreateRecord today p uid pbid pdd).1] ∧
    (pgCreateRecord today p uid pbid pdd).2.books = p.books :=
  ⟨rfl, rfl, rfl, rfl, rfl, rfl, rfl, rfl, rfl, rfl, rfl⟩

/-- Witness for C8: the creation evaluated on the empty stores. -/
theorem c8_create_record_witness :
    (mongoCreateRecord 7 emptyStore "Ada" 5 9).1.status = "borrowed" ∧
    (mongoCreateRecord 7 emptyStore "Ada" 5 9).1.borrow_date = 7 ∧
    (mongoCreateRecord 7 emptyStore "Ada" 5 9).1.return_date = none ∧
    (mongoCreateRecord 7 emptyStore "Ada" 5 9).2.records
      = emptyStore.records ++ [(mongoCreateRecord 7 emptyStore "Ada" 5 9).1] ∧
    (mongoCreateRecord 7 emptyStore "Ada" 5 9).2.books = emptyStore.books ∧
    (mongoCreateRecord 7 emptyStore "Ada" 5 9).2.users = emptyStore.users ∧
    (pgCreateRecord 3 pgEmpty 1 5 9).1.status = "borrowed" ∧
    (pgCreateRecord 3 pgEmpty 1 5 9).1.borrow_date = 3 ∧
    (pgCreateRecord 3 pgEmpty 1 5 9).1.return_date = none ∧
    (pgCreateRecord 3 pgEmpty 1 5 9).2.records
      = pgEmpty.records ++ [(pgCreateRecord 3 pgEmpty 1 5 9).1] ∧
    (pgCreateRecord 3 pgEmpty 1 5 9).2.books = pgEmpty.books :=
  c8_create_record 7 emptyStore "Ada" 5 9 3 pgEmpty 1 5 9

/-- Claim C9: deleting a user either fails leaving the store unchanged, or
succeeds leaving no borrow record that references the deleted user — under
either foreign-key policy the spec allows; it never succeeds while dangling
records remain. -/
theorem c9_delete_user_referenced (pol : FkPolicy) (p : PgStore) (uid : Nat) :
    (∃ e, pgDeleteUser pol p uid = (.error e, p)) ∨
    ((pgDeleteUser pol p uid).1 = .ok "User deleted" ∧
      ((pgDeleteUser pol p uid).2.records.all (fun r => r.user_id ≠ uid)) = true) := by
  cases hany : p.records.any (fun r => r.user_id = uid) with
  | true =>
    cases pol with
    | restrict =>
      left
      exact ⟨(500, "Error deleting user"), by simp [pgDeleteUser, hany]⟩
    | cascade =>
      right
      refine ⟨by simp [pgDeleteUser, hany], ?_⟩
      simp only [pgDeleteUser, hany, if_true, List.all_eq_true, List.mem_filter,
        decide_eq_true_eq]
      intro r hr
      exact hr.2
  | false =>
    right
    have hall : ∀ r ∈ p.records, ¬ r.user_id = uid := by
      simpa using hany
    refine ⟨by simp [pgDeleteUser, hany], ?_⟩
    simp only [pgDeleteUser, hany, Bool.false_eq_true, if_false, List.all_eq_true,
      decide_eq_true_eq]
    exact hall

/-- Witness for C9: under the restrict policy, deleting user 1 who holds a
live borrow record fails and leaves the store as it was. -/
theorem c9_delete_user_referenced_witness :
    (∃ e, pgDeleteUser FkPolicy.restrict
        { users := [{ user_id := 1, full_name := "Ada", email := "a@x.com",
                      password := "h", role := some "student" }],
          books := [],
          records := [{ record_id := 1, user_id := 1, book_id := 5, borrow_date := 0,
                        due_date := 9, return_date := none, status := "borrowed" }],
          nextId := 2 } 1
      = (.error e, { users := [{ user_id := 1, full_name := "Ada", email := "a@x.com",
                                 password := "h", role := some "student" }],
                     books := [],
                     records := [{ record_id := 1, user_id := 1, book_id := 5,
                                   borrow_date := 0, due_date := 9, return_date := none,
                                   status := "borrowed" }],
                     nextId := 2 })) ∨
    ((pgDeleteUser FkPolicy.restrict
        { users := [{ user_id := 1, full_name := "Ada", email := "a@x.com",
                      password := "h", role := some "student" }],
          books := [],
          records := [{ record_id := 1, user_id := 1, book_id := 5, borrow_date := 0,
                        due_date := 9, return_date := none, status := "borrowed" }],
          nextId := 2 } 1).1 = .ok "User deleted" ∧
      ((pgDeleteUser FkPolicy.restrict
        { users := [{ user_id := 1, full_name := "Ada", email := "a@x.com",
                      password := "h", role := some "student" }],
          books := [],
          records := [{ record_id := 1, user_id := 1, book_id := 5, borrow_date := 0,
                        due_date := 9, return_date := none, status := "borrowed" }],
          nextId := 2 } 1).2.records.all (fun r => r.user_id ≠ 1)) = true) :=
  c9_delete_user_referenced FkPolicy.restrict
    { users := [{ user_id := 1, full_name := "Ada", email := "a@x.com",
                  password := "h", role := some "student" }],
      books := [],
      records := [{ record_id := 1, user_id := 1, book_id := 5, borrow_date := 0,
                    due_date := 9, return_date := none, status := "borrowed" }],
      nextId := 2 } 1

/-- Claim C10: in the Mongoose variant, POST /users stores the new user with
password equal to the hash of the fixed string "password123"; provided the
hashing primitive verifies its own hash (bcrypt's contract), a subsequent
POST /login with that email and the password "password123" succeeds and
returns a signed token. -/
theorem c10_default_password_login (hash : String → String)
    (compare : String → String → Bool) (sign : Nat → String → String)
    (now : Nat) (s : Store) (fn e : String) (role : Option String)
    (hfresh : ∀ u ∈ s.users, u.email ≠ e)
    (hc : compare "password123" (hash "password123") = true) :
    (∃ u ∈ (mongoCreateUser hash now s fn e role).2.users,
      u.email = e ∧ u.password = hash "password123") ∧
    mongoLogin compare sign (mongoCreateUser hash now s fn e role).2 e "password123"
      = .ok (sign s.nextId (role.getD "student")) := by
  have hany : s.users.any (fun u => u.email = e) = false := by
    simp only [List.any_eq_false, decide_eq_true_eq]
    exact hfresh
  have hcreate : (mongoCreateUser hash now s fn e role).2
      = { s with users := s.users ++ [defaultPasswordUser hash now s fn e role],
                 nextId := s.nextId + 1 } := by
    simp [mongoCreateUser, hany]
  have hnone : s.users.find? (fun u => u.email = e) = none := by
    rw [List.find?_eq_none]
    intro u hu
    simp [hfresh u hu]
  have hfind : (s.users ++ [defaultPasswordUser hash now s fn e role]).find?
        (fun u => u.email = e)
      = some (defaultPasswordUser hash now s fn e role) := by
    rw [List.find?_append, hnone]
    simp [defaultPasswordUser]
  constructor
  · refine ⟨defaultPasswordUser hash now s fn e role, ?_, rfl, rfl⟩
    rw [hcreate]
    simp
  · rw [hcreate]
    simp only [mongoLogin, hfind]
    have hpw : (defaultPasswordUser hash now s fn e role).password = hash "password123" := rfl
    rw [hpw, hc]
    rfl

/-- Witness for C10: with an identity stand-in for the hashing primitive and
literal-equality comparison, creating Ada on the empty store and logging in
with password123 yields her signed token. -/
theorem c10_default_password_login_witness :
    (∃ u ∈ (mongoCreateUser (fun q => q) 0 emptyStore "Ada" "a@x.com" none).2.users,
      u.email = "a@x.com" ∧ u.password = (fun q : String => q) "password123") ∧
    mongoLogin (fun a b => a = b) (fun i r => toString i ++ r)
      (mongoCreateUser (fun q => q) 0 emptyStore "Ada" "a@x.com" none).2
      "a@x.com" "password123"
      = .ok ((fun i r => toString i ++ r) emptyStore.nextId
          ((none : Option String).getD "student")) :=
  c10_default_password_login (fun q => q) (fun a b => a = b)
    (fun i r => toString i ++ r) 0 emptyStore "Ada" "a@x.com" none
    (by simp [emptyStore]) (by decide)

end Siwes
